import Mathlib

/-!
Verification development for the ItCompilesOnMyMachine playground
(src/script.js: the page controller `script.js` and the sandbox harness
`py-worker.js`, concatenated in the repository snapshot).

Shallow embedding conventions:
* a JS string is modelled as its sequence of UTF-16-ish characters,
  `Str := List Char`; `s.length` is `List.length`, `s.slice(0, n)` is
  `List.take n`, `+=` is `++`;
* a JS object literal is modelled as a structure; a property that the
  source never writes is modelled as an `Option` field set to `none`
  (reading an absent property in JS yields `undefined`);
* the opaque Pyodide interpreter (out of scope per the design notes) is a
  parameter `exec : Str → Globals → ExecOutcome` following the declared
  collaborator contract `execute(code) → {ok, stdout, stderr}` plus an
  optional raised-exception traceback;
* the page controller state (module-level variables `worker`, `running`,
  `runTimeout`, plus the DOM cells the handlers write) is a record
  `CState`, and each source function is a state transformer.
-/

/-- Strings as character lists (JS `String.prototype.length` / `slice`
count code units; the spec says length accounting is by character count
and approximate). -/
abbrev Str := List Char

/-- Embed a Lean string literal as a character list. -/
def str (s : String) : Str := s.data

/-- The fixed truncation marker appended by `capJoin` in py-worker.js:
`"\n…[output truncated]\n"`. -/
def marker : Str := str "\n…[output truncated]\n"

/-- Combined character count of a chunk sequence. -/
def totalLen (cs : List Str) : Nat := (cs.map List.length).sum

/-- Loop body of `capJoin` (py-worker.js): `out` is the accumulator; for
each chunk, if `out.length + chunk.length > capBytes` the chunk is cut to
`Math.max(0, capBytes - out.length)` characters (Nat subtraction), the
marker is appended and the function returns, dropping all later chunks;
otherwise the whole chunk is appended. -/
def capJoinAux (capBytes : Nat) : Str → List Str → Str
  | out, [] => out
  | out, c :: cs =>
    if out.length + c.length > capBytes then
      out ++ c.take (capBytes - out.length) ++ marker
    else
      capJoinAux capBytes (out ++ c) cs

/-- `capJoin(chunks, capBytes)` from py-worker.js: starts the accumulator
at the empty string. -/
def capJoin (chunks : List Str) (capBytes : Nat) : Str :=
  capJoinAux capBytes [] chunks

/-- Outcome of one call to the opaque interpreter on user code: captured
stdout and stderr accumulators, plus `exc = some tb` when the executed
code raised and `tb` is the formatted traceback (`traceback.format_exc()`),
or `none` when execution completed normally. -/
structure ExecOutcome where
  stdout : Str
  stderr : Str
  exc : Option Str
deriving DecidableEq

/-- Top-level namespace passed to `exec`: a fresh dict per run. -/
abbrev Globals := List (Str × Str)

/-- The fresh globals built by the harness for every run:
`glb = {"__name__": "__main__"}`. -/
def freshGlobals : Globals := [(str "__name__", str "__main__")]

/-- The opaque embedded interpreter, per the design-notes collaborator
contract: a function of the submitted code and the top-level namespace it
is executed in. -/
abbrev Exec := Str → Globals → ExecOutcome

/-- Dict returned by the Python harness `__run_user_code`. -/
structure UserRunResult where
  ok : Bool
  stdout : Str
  stderr : Str
deriving DecidableEq

/-- The Python harness `__run_user_code(code)` preloaded in py-worker.js:
redirects stdout/stderr into fresh accumulators, runs `exec(code, glb,
glb)` with `glb = {"__name__": "__main__"}` built anew for this call, and
returns `{ok: True, stdout, stderr}` on success; on an exception it is
caught by the `except Exception` arm and the harness returns
`{ok: False, stdout, stderr + traceback.format_exc()}`. -/
def __run_user_code (exec : Exec) (code : Str) : UserRunResult :=
  let glb := freshGlobals
  let o := exec code glb
  match o.exc with
  | none => ⟨true, o.stdout, o.stderr⟩
  | some tb => ⟨false, o.stdout, o.stderr ++ tb⟩

/-- Chunk list built in the worker `run` handler: `chunks = []`, then
`if (res.stdout) chunks.push(res.stdout)` and the same for stderr — the
stdout chunk first, then the stderr chunk, each only when non-empty
(JS string truthiness). -/
def buildChunks (stdout stderr : Str) : List Str :=
  (if stdout = [] then [] else [stdout]) ++ (if stderr = [] then [] else [stderr])

/-- The `result` message object posted by the worker:
`{type: "result", ok: !!res.ok, output: output || "(no output)"}`.
The source writes only `ok` and `output`; `truncated` and `generation`
are absent from the object literal, so reading them yields `undefined`,
modelled as `none`. -/
structure ResultMsg where
  ok : Bool
  output : Str
  truncated : Option Bool
  generation : Option Nat
deriving DecidableEq

/-- Placeholder used when both accumulators are empty:
`output || "(no output)"`. -/
def noOutput : Str := str "(no output)"

/-- Worker handling of a `run` message (py-worker.js `self.onmessage`,
`type === "run"`, non-throwing path): run the harness, build the chunk
list, cap it with `capBytes ?? 16000`, and post the result object. -/
def handleRun (exec : Exec) (code : Str) (capBytes : Option Nat) : ResultMsg :=
  let res := __run_user_code exec code
  let chunks := buildChunks res.stdout res.stderr
  let output := capJoin chunks (capBytes.getD 16000)
  { ok := res.ok
    output := if output = [] then noOutput else output
    truncated := none
    generation := none }

section CapJoinLemmas

/-- When the whole remaining input fits the budget, `capJoinAux` returns
the accumulator followed by the plain concatenation. -/
theorem capJoinAux_fits (cs : List Str) (cap : Nat) (out : Str)
    (h : out.length + totalLen cs ≤ cap) :
    capJoinAux cap out cs = out ++ cs.flatten := by
  induction cs generalizing out with
  | nil => simp [capJoinAux]
  | cons c cs ih =>
    have htot : totalLen (c :: cs) = c.length + totalLen cs := by
      simp [totalLen]
    rw [htot] at h
    have hle : ¬ (out.length + c.length > cap) := by omega
    rw [capJoinAux, if_neg hle, ih (out ++ c) (by simp; omega)]
    simp

/-- When the remaining input overflows the budget (and the accumulator is
still within it), `capJoinAux` returns the budget-sized prefix of the
full concatenation followed by the marker. -/
theorem capJoinAux_overflow (cs : List Str) (cap : Nat) (out : Str)
    (hout : out.length ≤ cap) (h : cap < out.length + totalLen cs) :
    capJoinAux cap out cs = (out ++ cs.flatten).take cap ++ marker := by
  induction cs generalizing out with
  | nil =>
    exfalso
    simp [totalLen] at h
    omega
  | cons c cs ih =>
    have htot : totalLen (c :: cs) = c.length + totalLen cs := by
      simp [totalLen]
    rw [htot] at h
    by_cases hgt : out.length + c.length > cap
    · rw [capJoinAux, if_pos hgt]
      have h1 : (out ++ (c :: cs).flatten).take cap
          = out ++ c.take (cap - out.length) := by
        rw [List.flatten_cons, List.take_append_eq_append_take,
          List.take_of_length_le hout, List.take_append_eq_append_take]
        have hz : cap - out.length - c.length = 0 := by omega
        rw [hz]
        simp
      rw [h1, List.append_assoc]
    · rw [capJoinAux, if_neg hgt,
        ih (out ++ c) (by simp; omega) (by simp; omega)]
      simp

/-- Total length of an appended chunk sequence. -/
theorem totalLen_append (cs rest : List Str) :
    totalLen (cs ++ rest) = totalLen cs + totalLen rest := by
  simp [totalLen]

/-- The flattened chunk list has length `totalLen`. -/
theorem length_flatten_eq_totalLen (cs : List Str) :
    cs.flatten.length = totalLen cs := by
  simp [totalLen]

/-- Overflow case of `capJoin` itself. -/
theorem capJoin_overflow (cs : List Str) (cap : Nat)
    (h : totalLen cs > cap) :
    capJoin cs cap = cs.flatten.take cap ++ marker := by
  have := capJoinAux_overflow cs cap [] (by simp) (by simpa using h)
  simpa [capJoin] using this

/-- Within-budget case of `capJoin` itself. -/
theorem capJoin_fits (cs : List Str) (cap : Nat)
    (h : totalLen cs ≤ cap) :
    capJoin cs cap = cs.flatten := by
  have := capJoinAux_fits cs cap [] (by simpa using h)
  simpa [capJoin] using this

/-- Length bound for `capJoin`, both cases. -/
theorem capJoin_length_le (cs : List Str) (cap : Nat) :
    (capJoin cs cap).length ≤ cap + marker.length := by
  by_cases h : totalLen cs ≤ cap
  · rw [capJoin_fits cs cap h]
    rw [length_flatten_eq_totalLen]
    omega
  · rw [capJoin_overflow cs cap (by omega)]
    rw [List.length_append, List.length_take]
    omega

/-- Once the sequence already overflows the budget, appending further
chunks does not change the result: they are dropped entirely. -/
theorem capJoin_drop_later (cs rest : List Str) (cap : Nat)
    (h : totalLen cs > cap) :
    capJoin (cs ++ rest) cap = capJoin cs cap := by
  have h2 : totalLen (cs ++ rest) > cap := by
    rw [totalLen_append]; omega
  rw [capJoin_overflow _ _ h2, capJoin_overflow _ _ h]
  have hflat : (cs ++ rest).flatten = cs.flatten ++ rest.flatten :=
    List.flatten_append cs rest
  rw [hflat, List.take_append_eq_append_take]
  have hz : cap - cs.flatten.length = 0 := by
    rw [length_flatten_eq_totalLen]; omega
  rw [hz]
  simp

/-- The worker joins the stdout chunk first, then the stderr chunk: the
uncapped concatenation is exactly `stdout ++ stderr`. -/
theorem buildChunks_flatten (o e : Str) :
    (buildChunks o e).flatten = o ++ e := by
  by_cases ho : o = [] <;> by_cases he : e = [] <;>
    simp [buildChunks, ho, he]

end CapJoinLemmas

/-- Status pill kinds written by `setStatus` in script.js: the only kinds
the source ever passes are `"ready"`, `"error"` and the fallback
`"loading"` class. -/
inductive StatusKind
  | loading
  | ready
  | error
deriving DecidableEq

/-- Ghost record of a run outcome surfaced to the caller: the three
`setOutput` call sites that report the end of a run — the result display
in `worker.onmessage`, the timed-out message in the watchdog callback,
and the stopped message in `stopCode`. -/
inductive Outcome
  | result (output : Str)
  | timedOut (ms : Nat)
  | cancelled
deriving DecidableEq

/-- Messages the controller posts to a worker (`worker.postMessage`):
`{type: "init"}` and `{type: "run", code, capBytes}`. The run object
literal has no `generation` property, so the field reads as `undefined`
(`none`). -/
inductive WMsg
  | init
  | run (code : Str) (capBytes : Nat) (generation : Option Nat)
deriving DecidableEq

/-- Messages a worker posts to the page (`self.postMessage`):
`{type: "ready"}`, `{type: "fatal", error}` and `{type: "result", ...}`. -/
inductive PMsg
  | ready
  | fatal (error : Str)
  | result (r : ResultMsg)
deriving DecidableEq

/-- Page-controller state (script.js): the module-level mutable variables
`worker`, `running`, `runTimeout`, the DOM cells the handlers write
(status pill kind, `outputEl.textContent`, the two button `disabled`
flags), and the environment needed to replay the asynchronous parts:
worker identities (`nextWorker` numbers the successive `new Worker`
objects, `terminated` lists the ids `terminate()` was called on), live
timers (`id, timeoutMs` pairs, since the callback closure captures
`timeoutMs`), the log of messages posted to workers, the queue of
worker-to-page messages already emitted but not yet dispatched, and the
ghost `outcomes` log of run outcomes delivered to the caller. -/
structure CState where
  worker : Option Nat
  nextWorker : Nat
  terminated : List Nat
  running : Bool
  runTimeout : Option (Nat × Nat)
  nextTimer : Nat
  activeTimers : List (Nat × Nat)
  statusKind : StatusKind
  output : Str
  runBtnDisabled : Bool
  stopBtnDisabled : Bool
  posted : List (Nat × WMsg)
  parentQueue : List (Nat × PMsg)
  outcomes : List Outcome

/-- `setStatus(kind, text)` from script.js: writes the status pill class
(the human-readable text is not modelled). -/
def setStatus (k : StatusKind) (s : CState) : CState :=
  { s with statusKind := k }

/-- `setOutput(text)` from script.js: writes `outputEl.textContent`. -/
def setOutput (t : Str) (s : CState) : CState :=
  { s with output := t }

/-- `setOutput` at one of the three call sites that deliver a run outcome
to the caller; also appends the outcome to the ghost log. -/
def reportOutcome (o : Outcome) (t : Str) (s : CState) : CState :=
  { s with output := t, outcomes := s.outcomes ++ [o] }

/-- `killWorker()` from script.js: `worker.terminate(); worker = null`
when a worker exists. -/
def killWorker (s : CState) : CState :=
  match s.worker with
  | some w => { s with terminated := w :: s.terminated, worker := none }
  | none => s

/-- `ensureWorker()` from script.js: returns the existing worker, or
constructs a new one, installs the message handler, shows the loading
status, disables both buttons and posts `{type: "init"}`. -/
def ensureWorker (s : CState) : CState × Nat :=
  match s.worker with
  | some w => (s, w)
  | none =>
    let w := s.nextWorker
    let s := { s with worker := some w, nextWorker := w + 1 }
    let s := setStatus .loading s
    let s := { s with runBtnDisabled := true, stopBtnDisabled := true,
                      posted := s.posted ++ [(w, WMsg.init)] }
    (s, w)

/-- `startRun()` from script.js. -/
def startRun (s : CState) : CState :=
  { s with running := true, stopBtnDisabled := false, runBtnDisabled := true }

/-- `finishRun()` from script.js: resets the flags and clears the pending
watchdog timer if any (`clearTimeout` of an already-fired timer is a
no-op, matching `List.erase` of an absent element). -/
def finishRun (s : CState) : CState :=
  let s := { s with running := false, stopBtnDisabled := true,
                    runBtnDisabled := false }
  match s.runTimeout with
  | some t => { s with activeTimers := s.activeTimers.erase t,
                       runTimeout := none }
  | none => s

/-- JS whitespace test for `String.prototype.trim` (the characters user
code is realistically padded with). -/
def isSpace (c : Char) : Bool :=
  c == ' ' || c == '\t' || c == '\n' || c == '\r' || c == '\x0b' || c == '\x0c'

/-- `code.trim()`: strip whitespace from both ends. -/
def trim (s : Str) : Str :=
  ((s.dropWhile isSpace).reverse.dropWhile isSpace).reverse

/-- Rejection text for blank submissions. -/
def warnEmpty : Str := str "⚠️ Please write some code first."

/-- Text shown while a run is in flight. -/
def runningMsg : Str := str "Running…"

/-- Watchdog message, with the timeout rendered into the text. -/
def timeoutMsg (ms : Nat) : Str :=
  str "⏱️ Timed out after " ++ (toString ms).data
    ++ str "ms. (Try a longer timeout or optimize the code.)"

/-- Stop-button message. -/
def stoppedMsg : Str := str "■ Stopped."

/-- `runCode()` from script.js, with the values read from the editor and
the two selects passed as arguments: reject blank code with a warning
(sending nothing), otherwise ensure the worker, flip the run flags, show
the running text, arm the watchdog timer for `timeoutMs`, and post
`{type: "run", code, capBytes}` — with no generation property and no
check of the current status. -/
def runCode (code : Str) (timeoutMs capBytes : Nat) (s : CState) : CState :=
  if trim code = [] then
    setOutput warnEmpty s
  else
    let p := ensureWorker s
    let s := startRun p.1
    let s := setOutput runningMsg s
    let t := s.nextTimer
    let s := { s with nextTimer := t + 1,
                      activeTimers := s.activeTimers ++ [(t, timeoutMs)],
                      runTimeout := some (t, timeoutMs) }
    { s with posted := s.posted ++ [(p.2, WMsg.run code capBytes none)] }

/-- Body of the watchdog `setTimeout` callback in `runCode`: report the
timeout, set the status pill back to ready, destroy the worker, construct
a replacement (which flips the pill to loading and posts `init`), and
`finishRun()`. -/
def timeoutCb (ms : Nat) (s : CState) : CState :=
  let s := reportOutcome (.timedOut ms) (timeoutMsg ms) s
  let s := setStatus .ready s
  let s := killWorker s
  let s := (ensureWorker s).1
  finishRun s

/-- `stopCode()` from script.js: a no-op unless a run is in flight;
otherwise report Stopped and perform the same destroy-and-rebuild
sequence as the watchdog. -/
def stopCode (s : CState) : CState :=
  if s.running = false then s
  else
    let s := reportOutcome .cancelled stoppedMsg s
    let s := setStatus .ready s
    let s := killWorker s
    let s := (ensureWorker s).1
    finishRun s

/-- The `worker.onmessage` handler installed by `ensureWorker`: `ready`
enables the Run button and shows the ready pill; `fatal` shows the error
pill, prints the error and disables both buttons; `result` calls
`finishRun()` and displays `msg.output` (an outcome delivery). The
handler reads no generation property and performs no staleness check. -/
def onmessage (m : PMsg) (s : CState) : CState :=
  match m with
  | .ready =>
    let s := setStatus .ready s
    { s with runBtnDisabled := false }
  | .fatal e =>
    let s := setStatus .error s
    let s := setOutput e s
    { s with runBtnDisabled := true, stopBtnDisabled := true }
  | .result r =>
    let s := finishRun s
    reportOutcome (.result r.output) r.output s

/-- Scheduler events: the two `runCode` entry points (the Ctrl/Cmd+Enter
keydown handler calls `runCode` unconditionally; the button click only
fires when the button is enabled), the stop click, a watchdog timer
firing, a live worker emitting `ready` or computing and emitting the
`result` for a previously posted run, and delivery of the oldest queued
worker message to the page. -/
inductive Ev
  | submitKey (code : Str) (timeoutMs capBytes : Nat)
  | clickRun (code : Str) (timeoutMs capBytes : Nat)
  | clickStop
  | timerFire (t ms : Nat)
  | emitReady (w : Nat)
  | emitResult (w : Nat) (code : Str) (capBytes : Nat)
  | dispatch
deriving DecidableEq

/-- One scheduler step. Guards: a timer only fires while still armed; a
worker only emits while not terminated, and only a `result` answering a
`run` actually posted to it (the result is computed by the worker code
`handleRun`). Dispatch pops the oldest queued worker message and runs the
page handler. The handler attached to a terminated `Worker` object is
still invoked for a message task that was queued before `terminate()` —
the late-result race the design notes flag as unguarded. -/
def step (exec : Exec) (s : CState) (e : Ev) : CState :=
  match e with
  | .submitKey c tm cb => runCode c tm cb s
  | .clickRun c tm cb => if s.runBtnDisabled then s else runCode c tm cb s
  | .clickStop => if s.stopBtnDisabled then s else stopCode s
  | .timerFire t ms =>
    if (t, ms) ∈ s.activeTimers then
      timeoutCb ms { s with activeTimers := s.activeTimers.erase (t, ms) }
    else s
  | .emitReady w =>
    if w ∉ s.terminated ∧ (w, WMsg.init) ∈ s.posted then
      { s with parentQueue := s.parentQueue ++ [(w, PMsg.ready)] }
    else s
  | .emitResult w code cb =>
    if w ∉ s.terminated ∧ (w, WMsg.run code cb none) ∈ s.posted then
      { s with parentQueue :=
          s.parentQueue ++ [(w, PMsg.result (handleRun exec code (some cb)))] }
    else s
  | .dispatch =>
    match s.parentQueue with
    | [] => s
    | m :: rest => onmessage m.2 { s with parentQueue := rest }

/-- Replay a list of events. -/
def runEvents (exec : Exec) (s : CState) (evs : List Ev) : CState :=
  evs.foldl (step exec) s

/-- State before `boot()` runs: no worker, nothing pending. The initial
pill text is the markup placeholder; buttons start disabled as in the
markup. -/
def initState : CState :=
  { worker := none, nextWorker := 0, terminated := [], running := false,
    runTimeout := none, nextTimer := 0, activeTimers := [],
    statusKind := .loading, output := [], runBtnDisabled := true,
    stopBtnDisabled := true, posted := [], parentQueue := [],
    outcomes := [] }

/-- State after `boot()`: the placeholder output is shown and
`ensureWorker()` has constructed worker 0 (status pill loading, `init`
posted). -/
def bootState : CState :=
  (ensureWorker (setOutput (str "Run your code to see output here…") initState)).1

/-- An interpreter behaviour for a snippet that runs for a while and then
prints a line: used to replay the late-result race. -/
def execDone : Exec := fun _ _ => ⟨str "done\n", [], none⟩

/-- An interpreter behaviour printing one short line. -/
def exec1 : Exec := fun _ _ => ⟨str "1\n", [], none⟩

/-- An interpreter behaviour printing six characters, used against a tiny
budget. -/
def execBig : Exec := fun _ _ => ⟨str "123456", [], none⟩

/-- An interpreter behaviour whose user code raises: some stderr was
already captured and a traceback is produced. -/
def execRaises : Exec :=
  fun _ _ => ⟨[], str "boom", some (str "Traceback (most recent call last): ZeroDivisionError\n")⟩

/-- Event trace replaying the race flagged in the design notes: the page
boots, the worker reports ready, a run is submitted with a 1000 ms
watchdog, the worker finishes and queues its result just before the
watchdog fires, the watchdog fires (destroying worker 0 and building
worker 1), and the already queued result is then dispatched. -/
def trace1 : List Ev :=
  [Ev.emitReady 0, Ev.dispatch,
   Ev.submitKey (str "slow()") 1000 16000,
   Ev.emitResult 0 (str "slow()") 16000,
   Ev.timerFire 0 1000,
   Ev.dispatch]

/-- State after boot once the worker has reported ready. -/
def sReady : CState := runEvents execDone bootState [Ev.emitReady 0, Ev.dispatch]

/-- State with a run in flight: a submission via the keyboard shortcut on
the ready state. -/
def sRun : CState := step execDone sReady (Ev.submitKey (str "x=1") 3000 16000)

/-- The worker handles successive `run` messages with no mutable state of
its own besides the already initialised interpreter instance: each `run`
message is answered by an independent `handleRun` call. -/
def workerRunSeq (exec : Exec) (codes : List Str) (capBytes : Option Nat) :
    List ResultMsg :=
  codes.map (fun c => handleRun exec c capBytes)

/-- Events that enter `runCode` (a submission). -/
def isSubmitEv : Ev → Bool
  | .submitKey _ _ _ => true
  | .clickRun _ _ _ => true
  | _ => false

section ControllerLemmas

/-- `finishRun` never touches the status pill. -/
theorem finishRun_statusKind (s : CState) :
    (finishRun s).statusKind = s.statusKind := by
  cases h : s.runTimeout <;> simp [finishRun, h]

/-- After `killWorker` there is no current worker. -/
theorem killWorker_worker_none (s : CState) : (killWorker s).worker = none := by
  unfold killWorker
  cases h : s.worker <;> simp [h]

/-- `ensureWorker` on a state with no worker constructs one and shows the
loading pill. -/
theorem ensureWorker_none_statusKind (s : CState) (h : s.worker = none) :
    ((ensureWorker s).1).statusKind = .loading := by
  unfold ensureWorker
  rw [h]
  rfl

end ControllerLemmas

/-- C1: the claim says every run request and result carries a generation
id and that any stale Run Result is discarded unread. Replaying the race
from the design notes on the embedded code shows the opposite: the run
message the controller posts carries no generation property, and a result
queued just before the watchdog fires is still delivered after the
watchdog has destroyed worker 0 and replaced it with worker 1 — the ghost
outcome log receives the stale result and the display shows it,
overwriting the timeout report. -/
theorem C1_stale_result_delivered :
    (runEvents execDone bootState trace1).posted
      = [(0, WMsg.init), (0, WMsg.run (str "slow()") 16000 none), (1, WMsg.init)]
    ∧ (runEvents execDone bootState trace1).terminated = [0]
    ∧ (runEvents execDone bootState trace1).worker = some 1
    ∧ (runEvents execDone bootState trace1).outcomes
      = [Outcome.timedOut 1000, Outcome.result (str "done\n")]
    ∧ (runEvents execDone bootState trace1).output = str "done\n" := by
  decide

/-- C2: the claim says every submitted run yields exactly one outcome.
On the same race trace, one submission is made and two outcomes are
surfaced to the caller: the timeout report and then the late stale
result. -/
theorem C2_two_outcomes_for_one_run :
    (trace1.filter isSubmitEv).length = 1
    ∧ (runEvents execDone bootState trace1).outcomes.length = 2 := by
  decide

/-- C3: the capper output never exceeds `capBytes` plus the marker
length; the worker concatenates the stdout chunk first and the stderr
chunk second (the uncapped concatenation is `stdout ++ stderr`); and once
the budget is exceeded by a chunk sequence, all later chunks are dropped
entirely. -/
theorem C3_cap_bound_order_drop (cs rest : List Str) (cap : Nat) (o e : Str) :
    (capJoin cs cap).length ≤ cap + marker.length
    ∧ (buildChunks o e).flatten = o ++ e
    ∧ (totalLen cs > cap → capJoin (cs ++ rest) cap = capJoin cs cap) :=
  ⟨capJoin_length_le cs cap, buildChunks_flatten o e,
    fun h => capJoin_drop_later cs rest cap h⟩

/-- Witness for C3 at concrete inputs, discharging the overflow
hypothesis of the drop clause. -/
theorem C3_witness :
    (capJoin [str "abc"] 2).length ≤ 2 + marker.length
    ∧ (buildChunks (str "a") (str "b")).flatten = str "a" ++ str "b"
    ∧ capJoin ([str "abc"] ++ [str "de"]) 2 = capJoin [str "abc"] 2 :=
  ⟨(C3_cap_bound_order_drop [str "abc"] [str "de"] 2 (str "a") (str "b")).1,
   (C3_cap_bound_order_drop [str "abc"] [str "de"] 2 (str "a") (str "b")).2.1,
   (C3_cap_bound_order_drop [str "abc"] [str "de"] 2 (str "a") (str "b")).2.2
     (by decide)⟩

/-- C4 counterexample: the claim also asserts that the capper reports
`truncated = false` for a within-budget run. For a run producing `"1\n"`
against the default budget the content is indeed returned unmodified, but
the result message posted by the worker has no `truncated` property at
all (it reads as `undefined`, not `false`). -/
theorem C4_counterexample :
    (handleRun exec1 (str "print(1)") (some 16000)).output = str "1\n"
    ∧ (handleRun exec1 (str "print(1)") (some 16000)).truncated ≠ some false := by
  decide

/-- C4 as amended: for chunk sequences that fit the budget (combined
length at most `capBytes`, equivalent to no chunk exceeding the remaining
budget at its turn) the capper returns the full concatenation unmodified,
with no truncation marker appended; no `truncated` flag exists anywhere,
so nothing reports `false`. -/
theorem C4_within_budget_unmodified (cs : List Str) (cap : Nat)
    (h : totalLen cs ≤ cap) :
    capJoin cs cap = cs.flatten :=
  capJoin_fits cs cap h

/-- Witness for C4 at a concrete within-budget input. -/
theorem C4_witness :
    capJoin [str "ab", str "cd"] 10 = ([str "ab", str "cd"] : List Str).flatten :=
  C4_within_budget_unmodified [str "ab", str "cd"] 10 (by decide)

/-- C5 counterexample: the claim asserts the capper returns a pair
`{output, truncated}` and that an over-budget run is delivered with
`truncated = true`. For a run producing six characters against a budget
of four, the delivered result message carries no `truncated` property:
reading it yields `undefined`, never `true`. -/
theorem C5_counterexample :
    totalLen (buildChunks (__run_user_code execBig (str "p")).stdout
        (__run_user_code execBig (str "p")).stderr) > 4
    ∧ (handleRun execBig (str "p") (some 4)).truncated ≠ some true := by
  decide

/-- C5 as amended: the capper is a pure function returning a single
string; for any run whose combined captured output exceeds `capBytes`,
the delivered output is the budget-sized prefix of the concatenation
followed by the fixed marker, and the result message carries no
`truncated` boolean (the field is absent). -/
theorem C5_capped_delivery (exec : Exec) (code : Str) (cb : Nat)
    (h : totalLen (buildChunks (__run_user_code exec code).stdout
        (__run_user_code exec code).stderr) > cb) :
    (handleRun exec code (some cb)).output
      = (buildChunks (__run_user_code exec code).stdout
          (__run_user_code exec code).stderr).flatten.take cb ++ marker
    ∧ (handleRun exec code (some cb)).truncated = none := by
  have hcap := capJoin_overflow
    (buildChunks (__run_user_code exec code).stdout
      (__run_user_code exec code).stderr) cb h
  have hne : capJoin (buildChunks (__run_user_code exec code).stdout
      (__run_user_code exec code).stderr) cb ≠ [] := by
    rw [hcap]
    intro hx
    exact absurd (List.append_eq_nil.mp hx).2 (by decide)
  constructor
  · have hout : (handleRun exec code (some cb)).output
        = (if capJoin (buildChunks (__run_user_code exec code).stdout
              (__run_user_code exec code).stderr) cb = [] then noOutput
           else capJoin (buildChunks (__run_user_code exec code).stdout
              (__run_user_code exec code).stderr) cb) := rfl
    rw [hout, if_neg hne, hcap]
  · rfl

/-- Witness for C5 at a concrete over-budget run. -/
theorem C5_witness :
    (handleRun execBig (str "p") (some 4)).output
      = (buildChunks (__run_user_code execBig (str "p")).stdout
          (__run_user_code execBig (str "p")).stderr).flatten.take 4 ++ marker
    ∧ (handleRun execBig (str "p") (some 4)).truncated = none :=
  C5_capped_delivery execBig (str "p") 4 (by decide)

/-- C6 counterexample: the claim says `submit` fails immediately and
sends nothing whenever the status is not Ready, for every entry point.
Right after boot the status pill is still loading (the worker has not
reported ready), yet a keyboard-shortcut submission of non-blank code
posts a `run` message to the sandbox: `runCode` never checks the
status. -/
theorem C6_counterexample :
    bootState.statusKind ≠ .ready
    ∧ (step execDone bootState (Ev.submitKey (str "print(1)") 3000 16000)).posted
      = [(0, WMsg.init), (0, WMsg.run (str "print(1)") 16000 none)] := by
  decide

/-- C6 as amended: only the blank-code precondition is enforced by
`runCode` itself — blank or whitespace-only code is rejected immediately
with a warning and no message is sent, on every entry point; the
status-Ready precondition is enforced nowhere in `runCode`, only
indirectly by the Run button being disabled, which gates the click entry
point alone. -/
theorem C6_blank_rejected (exec : Exec) (s : CState) (c : Str) (tm cb : Nat)
    (hblank : trim c = []) (hbtn : s.runBtnDisabled = true) :
    runCode c tm cb s = setOutput warnEmpty s
    ∧ (runCode c tm cb s).posted = s.posted
    ∧ step exec s (Ev.clickRun c tm cb) = s := by
  have h1 : runCode c tm cb s = setOutput warnEmpty s := by
    unfold runCode
    rw [if_pos hblank]
  refine ⟨h1, by rw [h1]; rfl, ?_⟩
  simp [step, hbtn]

/-- Witness for C6 at a whitespace-only submission on the booted state,
whose Run button is disabled. -/
theorem C6_witness :
    runCode (str "  \n ") 3000 16000 bootState = setOutput warnEmpty bootState
    ∧ (runCode (str "  \n ") 3000 16000 bootState).posted = bootState.posted
    ∧ step execDone bootState (Ev.clickRun (str "  \n ") 3000 16000) = bootState :=
  C6_blank_rejected execDone bootState (str "  \n ") 3000 16000 (by decide) (by decide)

/-- C7: a user-code exception is caught inside the sandbox — the harness
returns normally with `ok = false` and the traceback appended to the
captured stderr accumulator, the worker answers with an ordinary result
message whose `ok` is false, and the page handler for that result leaves
a Ready status pill at Ready (it never sets Error). -/
theorem C7_user_fault_recovered (exec : Exec) (code : Str) (cb : Option Nat)
    (tb : Str) (s : CState)
    (hexc : (exec code freshGlobals).exc = some tb)
    (hready : s.statusKind = .ready) :
    (__run_user_code exec code).ok = false
    ∧ (__run_user_code exec code).stderr = (exec code freshGlobals).stderr ++ tb
    ∧ (handleRun exec code cb).ok = false
    ∧ (onmessage (.result (handleRun exec code cb)) s).statusKind = .ready := by
  have hr : __run_user_code exec code
      = ⟨false, (exec code freshGlobals).stdout,
          (exec code freshGlobals).stderr ++ tb⟩ := by
    show (match (exec code freshGlobals).exc with
      | none => ({ ok := true, stdout := (exec code freshGlobals).stdout,
                   stderr := (exec code freshGlobals).stderr } : UserRunResult)
      | some t => { ok := false, stdout := (exec code freshGlobals).stdout,
                    stderr := (exec code freshGlobals).stderr ++ t }) = _
    rw [hexc]
  refine ⟨by rw [hr], by rw [hr], ?_, ?_⟩
  · show (__run_user_code exec code).ok = false
    rw [hr]
  · show (finishRun s).statusKind = .ready
    rw [finishRun_statusKind, hready]

/-- Witness for C7: an interpreter behaviour that raises after writing
some stderr, handled on the ready state. -/
theorem C7_witness :
    (__run_user_code execRaises (str "1/0")).ok = false
    ∧ (__run_user_code execRaises (str "1/0")).stderr
      = (execRaises (str "1/0") freshGlobals).stderr
        ++ str "Traceback (most recent call last): ZeroDivisionError\n"
    ∧ (handleRun execRaises (str "1/0") (some 16000)).ok = false
    ∧ (onmessage (.result (handleRun execRaises (str "1/0") (some 16000)))
        sReady).statusKind = .ready :=
  C7_user_fault_recovered execRaises (str "1/0") (some 16000)
    (str "Traceback (most recent call last): ZeroDivisionError\n") sReady
    (by decide) (by decide)

/-- C8: the worker keeps no mutable state across runs besides the
interpreter instance, and the harness builds a brand-new top-level
namespace for each run, so handling the same code twice in sequence
produces identical result messages — in particular identical captured
output. -/
theorem C8_identical_sequential_runs (exec : Exec) (code : Str)
    (cb : Option Nat) (r1 r2 : ResultMsg)
    (h : workerRunSeq exec [code, code] cb = [r1, r2]) :
    r1.output = r2.output ∧ r1 = r2 := by
  unfold workerRunSeq at h
  simp at h
  obtain ⟨h1, h2⟩ := h
  subst h1
  subst h2
  exact ⟨rfl, rfl⟩

/-- Witness for C8 at a concrete double submission. -/
theorem C8_witness :
    (handleRun exec1 (str "print(1)") (some 16000)).output
      = (handleRun exec1 (str "print(1)") (some 16000)).output
    ∧ handleRun exec1 (str "print(1)") (some 16000)
      = handleRun exec1 (str "print(1)") (some 16000) :=
  C8_identical_sequential_runs exec1 (str "print(1)") (some 16000) _ _ rfl

/-- C9 counterexample: the claim says every successful submit passes the
status through a distinct Running state. On the ready state a
keyboard-shortcut submission leaves a run outstanding (`running = true`)
while the status pill still shows Ready: no Running status exists in the
code (`setStatus` only knows loading, ready and error), so the claimed
`Ready → Running → Ready` sequence never happens. -/
theorem C9_counterexample :
    sReady.statusKind = .ready
    ∧ sRun.running = true
    ∧ sRun.statusKind = .ready := by
  decide

/-- C9 as amended: a run in flight is tracked by the `running` flag, not
by the status — `runCode` leaves the status unchanged (Ready stays
Ready), a result message leaves it unchanged, timeout and stop both end
with the loading pill (the replacement worker is being built), and the
replacement worker later flips it to ready, or to error on a fatal
message; loading, ready and error are the only status values. -/
theorem C9_status_transitions (s : CState) (w : Nat) (c : Str)
    (tm cb ms : Nat) (r : ResultMsg) (e : Str)
    (hw : s.worker = some w) (hrun : s.running = true) :
    (runCode c tm cb s).statusKind = s.statusKind
    ∧ (onmessage (.result r) s).statusKind = s.statusKind
    ∧ (timeoutCb ms s).statusKind = .loading
    ∧ (stopCode s).statusKind = .loading
    ∧ (onmessage .ready s).statusKind = .ready
    ∧ (onmessage (.fatal e) s).statusKind = .error := by
  refine ⟨?_, ?_, ?_, ?_, rfl, rfl⟩
  · unfold runCode
    split
    · rfl
    · simp [ensureWorker, hw, startRun, setOutput]
  · show (finishRun s).statusKind = s.statusKind
    exact finishRun_statusKind s
  · show (finishRun ((ensureWorker (killWorker (setStatus .ready
        (reportOutcome (.timedOut ms) (timeoutMsg ms) s)))).1)).statusKind
      = .loading
    rw [finishRun_statusKind]
    exact ensureWorker_none_statusKind _ (killWorker_worker_none _)
  · unfold stopCode
    rw [hrun, if_neg (by decide)]
    show (finishRun ((ensureWorker (killWorker (setStatus .ready
        (reportOutcome .cancelled stoppedMsg s)))).1)).statusKind = .loading
    rw [finishRun_statusKind]
    exact ensureWorker_none_statusKind _ (killWorker_worker_none _)

/-- Witness for C9 on the in-flight state after a submission. -/
theorem C9_witness :
    (runCode (str "y=2") 3000 16000 sRun).statusKind = sRun.statusKind
    ∧ (onmessage (.result ⟨true, str "1\n", none, none⟩) sRun).statusKind
      = sRun.statusKind
    ∧ (timeoutCb 1000 sRun).statusKind = .loading
    ∧ (stopCode sRun).statusKind = .loading
    ∧ (onmessage .ready sRun).statusKind = .ready
    ∧ (onmessage (.fatal (str "err")) sRun).statusKind = .error :=
  C9_status_transitions sRun 0 (str "y=2") 3000 16000 1000
    ⟨true, str "1\n", none, none⟩ (str "err") (by decide) (by decide)

/-- C10: for any chunk sequence whose combined length exceeds the budget,
the capped output is exactly the first `capBytes` characters of the full
in-order concatenation followed by the fixed marker, its length is
exactly `capBytes` plus the marker length, and the kept content is a
prefix of the uncapped concatenation. -/
theorem C10_exact_truncation (cs : List Str) (cap : Nat)
    (h : totalLen cs > cap) :
    capJoin cs cap = cs.flatten.take cap ++ marker
    ∧ (capJoin cs cap).length = cap + marker.length
    ∧ cs.flatten.take cap ++ cs.flatten.drop cap = cs.flatten
    ∧ marker = str "\n…[output truncated]\n" := by
  refine ⟨capJoin_overflow cs cap h, ?_, List.take_append_drop cap cs.flatten,
    rfl⟩
  rw [capJoin_overflow cs cap h, List.length_append, List.length_take,
    length_flatten_eq_totalLen]
  omega

/-- Witness for C10 including the `capBytes = 0` edge case, where only
the marker is returned. -/
theorem C10_witness :
    capJoin [str "a"] 0 = ([str "a"] : List Str).flatten.take 0 ++ marker
    ∧ (capJoin [str "a"] 0).length = 0 + marker.length
    ∧ ([str "a"] : List Str).flatten.take 0
        ++ ([str "a"] : List Str).flatten.drop 0
      = ([str "a"] : List Str).flatten
    ∧ marker = str "\n…[output truncated]\n" :=
  C10_exact_truncation [str "a"] 0 (by decide)
